import Mathlib

/-!
Shallow embedding of the MedAI record store (`database.py`) and the booking,
lifecycle and date-parsing logic (`main.py`).

Modelling conventions:
* JSON timestamps (ISO strings in the source) are modelled as `Int` seconds
  (dates alone as `Int` days since 1970-01-01); all comparisons in the source
  go through `datetime`, whose total order agrees with this encoding.
* Python dicts keyed by `str(id)` are modelled as association lists
  `List (Nat × α)` with dict assignment semantics (update in place keeps the
  position, fresh key appends); iteration over `.values()` follows list order,
  exactly like Python dict insertion order.
* Python truthiness of optional strings (`x or y`) is modelled by `pyOrStr`:
  `None` and `""` are falsy.
* `datetime.now()` is passed in explicitly as `now`; external side effects
  (file save, email, Google calendar) do not touch the store and are omitted.
-/

namespace MedAI

/-- Python `str.lower()` (ASCII case folding, which is all the repo uses). -/
def pyLower (s : String) : String := String.mk (s.data.map Char.toLower)

/-- Python `str.strip()`: remove leading and trailing whitespace. -/
def pyStrip (s : String) : String :=
  String.mk (((s.data.dropWhile Char.isWhitespace).reverse.dropWhile Char.isWhitespace).reverse)

/-- `listStarts needle hay` : does `hay` start with `needle`? -/
def listStarts : List Char → List Char → Bool
  | [], _ => true
  | _ :: _, [] => false
  | c :: cs, d :: ds => c == d && listStarts cs ds

/-- `listHasSub needle hay` : does `needle` occur as a contiguous run in `hay`?
(Python `needle in hay` on strings.) -/
def listHasSub (needle : List Char) : List Char → Bool
  | [] => listStarts needle []
  | c :: t => listStarts needle (c :: t) || listHasSub needle t

/-- Python `needle in hay` for strings. -/
def strContains (hay needle : String) : Bool := listHasSub needle.data hay.data

/-- Python `s.startswith(pre)`. -/
def strStarts (s pre : String) : Bool := listStarts pre.data s.data

/-- Lexicographic code-point comparison of Python strings (`a < b`). -/
def listLtChars : List Char → List Char → Bool
  | [], [] => false
  | [], _ :: _ => true
  | _ :: _, [] => false
  | a :: as, b :: bs => if a == b then listLtChars as bs else decide (a < b)

/-- Python `s.replace(needle, repl)` (all non-overlapping occurrences, left to
right), written with explicit fuel so that it is structurally recursive; the
fuel is always at least the length of the remaining list, so it never runs
out. -/
def listReplaceFuel (needle repl : List Char) : Nat → List Char → List Char
  | 0, l => l
  | _ + 1, [] => []
  | fuel + 1, c :: t =>
    if listStarts needle (c :: t) && !needle.isEmpty then
      repl ++ listReplaceFuel needle repl fuel (t.drop (needle.length - 1))
    else c :: listReplaceFuel needle repl fuel t

/-- Python `s.replace(needle, repl)`. -/
def strReplace (s needle repl : String) : String :=
  String.mk (listReplaceFuel needle.data repl.data s.data.length s.data)

/-- Python `s.split(sep)` for a one-character separator (what the modelled
`strptime` formats need). -/
def splitOnChar (sep : Char) : List Char → List (List Char)
  | [] => [[]]
  | c :: t =>
    let r := splitOnChar sep t
    if c == sep then [] :: r
    else
      match r with
      | [] => [[c]]
      | h :: rt => (c :: h) :: rt

/-- Python `a or b` on optional strings: `None` and `""` are falsy. -/
def pyOrStr (a b : Option String) : Option String :=
  match a with
  | none => b
  | some s => if s = "" then b else a

/-- Python `x.get(key, "") or ""` style read of an optional string field. -/
def optStr (o : Option String) : String := o.getD ""

/- ## Data model (the dict shapes built in `database.py`) -/

structure Patient where
  id : Nat
  name : String
  email : String
  role : String
  medical_history : Option String
  current_medication : Option String
  current_symptoms : Option String
  created_at : Int
  deriving Repr, DecidableEq

structure Doctor where
  id : Nat
  name : String
  email : String
  role : String
  specialization : String
  days_available : Option String
  created_at : Int
  deriving Repr, DecidableEq

structure Appointment where
  id : Nat
  patient_id : Nat
  patient_email : String
  doctor_id : Nat
  doctor_email : String
  symptoms : String
  appointment_date : Int
  status : String
  appointment_completed : Bool
  google_event_id : Option String
  created_at : Int
  completed_at : Option Int
  deriving Repr, DecidableEq

/-- A structured medication entry as produced by `parse_medications_intelligently`;
missing dict keys read via `med.get(k, '')` are modelled as `""`. -/
structure Medication where
  name : String
  dosage : String
  frequency : String
  duration : String
  instructions : String
  deriving Repr, DecidableEq

structure VisitRecord where
  id : Nat
  patient_id : Nat
  patient_email : String
  patient_name : String
  doctor_id : Nat
  doctor_email : String
  doctor_name : String
  appointment_id : Option Nat
  visit_date : Int
  visit_summary : String
  medications : List Medication
  instructions : Option String
  next_appointment : Option String
  created_at : Int
  deriving Repr, DecidableEq

/-- The in-memory store `JSONDatabase.data`. -/
structure DB where
  patients : List (Nat × Patient)
  doctors : List (Nat × Doctor)
  appointments : List Appointment
  post_visit_records : List VisitRecord
  next_patient_id : Nat
  next_doctor_id : Nat
  next_appointment_id : Nat
  next_visit_record_id : Nat
  deriving Repr, DecidableEq

/-- Python dict assignment `m[str(k)] = v`: update in place if the key exists
(keeping its position), otherwise append. -/
def setKey {α : Type} : List (Nat × α) → Nat → α → List (Nat × α)
  | [], k, v => [(k, v)]
  | (k0, v0) :: t, k, v =>
    if k0 = k then (k, v) :: t else (k0, v0) :: setKey t k v

/-- `get_patient_by_email`: first patient (in dict order) with this email. -/
def get_patient_by_email (db : DB) (email : String) : Option Patient :=
  (db.patients.map Prod.snd).find? (fun p => p.email == email)

/-- `get_doctor_by_email`: first doctor (in dict order) with this email. -/
def get_doctor_by_email (db : DB) (email : String) : Option Doctor :=
  (db.doctors.map Prod.snd).find? (fun d => d.email == email)

/-- `get_appointment_by_id`: first appointment with this id. -/
def get_appointment_by_id (db : DB) (appointment_id : Nat) : Option Appointment :=
  db.appointments.find? (fun a => a.id == appointment_id)

/-- `add_patient`: upsert keyed by email (`database.py` lines 56-94). -/
def add_patient (db : DB) (now : Int) (email name : String)
    (medical_history current_medication current_symptoms : Option String) :
    Nat × DB :=
  match get_patient_by_email db email with
  | some existing =>
    let patient_id := existing.id
    let patient_data : Patient :=
      { id := patient_id, name := name, email := email, role := "Patient"
        medical_history := pyOrStr medical_history existing.medical_history
        current_medication := pyOrStr current_medication existing.current_medication
        current_symptoms := pyOrStr current_symptoms existing.current_symptoms
        created_at := existing.created_at }
    (patient_id, { db with patients := setKey db.patients patient_id patient_data })
  | none =>
    let patient_id := db.next_patient_id
    let patient_data : Patient :=
      { id := patient_id, name := name, email := email, role := "Patient"
        medical_history := medical_history
        current_medication := current_medication
        current_symptoms := current_symptoms
        created_at := now }
    (patient_id,
     { db with patients := setKey db.patients patient_id patient_data
               next_patient_id := patient_id + 1 })

/-- `create_appointment` (`database.py` lines 210-240).  `none` models the
`ValueError` raised when the patient or doctor email does not resolve. -/
def create_appointment (db : DB) (now : Int) (patient_email doctor_email symptoms : String)
    (appointment_date : Int) (google_event_id : Option String) : Option (Nat × DB) :=
  match get_patient_by_email db patient_email, get_doctor_by_email db doctor_email with
  | some patient, some doctor =>
    let appointment_id := db.next_appointment_id
    let appointment_data : Appointment :=
      { id := appointment_id
        patient_id := patient.id, patient_email := patient_email
        doctor_id := doctor.id, doctor_email := doctor_email
        symptoms := symptoms
        appointment_date := appointment_date
        status := "scheduled"
        appointment_completed := false
        google_event_id := google_event_id
        created_at := now
        completed_at := none }
    some (appointment_id,
      { db with appointments := db.appointments ++ [appointment_data]
                next_appointment_id := appointment_id + 1 })
  | _, _ => none

/-- Delete the first appointment with the given id, if any (the `for`/`del`
loop of `delete_appointment`). -/
def removeFirstAppointment : List Appointment → Nat → Option (List Appointment)
  | [], _ => none
  | a :: t, appointment_id =>
    if a.id = appointment_id then some t
    else (removeFirstAppointment t appointment_id).map (a :: ·)

/-- `delete_appointment` (`database.py` lines 279-286). -/
def delete_appointment (db : DB) (appointment_id : Nat) : Bool × DB :=
  match removeFirstAppointment db.appointments appointment_id with
  | some l => (true, { db with appointments := l })
  | none => (false, db)

/-- The mutation `update_appointment_completion_status` performs on the matched
appointment dict. -/
def applyCompletion (now : Int) (completed : Bool) (a : Appointment) : Appointment :=
  if completed then
    { a with appointment_completed := completed, status := "completed", completed_at := some now }
  else
    { a with appointment_completed := completed }

/-- Update the first appointment with the given id, if any. -/
def updateFirstAppointment (now : Int) (completed : Bool) :
    List Appointment → Nat → Option (List Appointment)
  | [], _ => none
  | a :: t, appointment_id =>
    if a.id = appointment_id then some (applyCompletion now completed a :: t)
    else (updateFirstAppointment now completed t appointment_id).map (a :: ·)

/-- `update_appointment_completion_status` (`database.py` lines 288-298). -/
def update_appointment_completion_status (db : DB) (now : Int) (appointment_id : Nat)
    (completed : Bool) : Bool × DB :=
  match updateFirstAppointment now completed db.appointments appointment_id with
  | some l => (true, { db with appointments := l })
  | none => (false, db)

/-- The string `f"{med.get('name', '')} - {med.get('dosage', '')} - {med.get('frequency', '')}"`
built per medication inside `add_post_visit_record`. -/
def medJoinStr (m : Medication) : String :=
  m.name ++ " - " ++ m.dosage ++ " - " ++ m.frequency

/-- Body of the `try` block of `add_post_visit_record` (`database.py` lines
327-376); `.error` models the raised `ValueError`.  Note that when medications
are provided the patient's `current_medication` is REPLACED by the `"; "`-join
of the new entries. -/
def add_post_visit_record_checked (db : DB) (now : Int)
    (patient_email doctor_email visit_summary : String) (medications : List Medication)
    (instructions next_appointment : Option String) (appointment_id : Option Nat) :
    Except String (Nat × DB) :=
  match get_patient_by_email db patient_email, get_doctor_by_email db doctor_email with
  | some patient, some doctor =>
    let visit_record_id := db.next_visit_record_id
    let visit_record : VisitRecord :=
      { id := visit_record_id
        patient_id := patient.id, patient_email := patient_email, patient_name := patient.name
        doctor_id := doctor.id, doctor_email := doctor_email, doctor_name := doctor.name
        appointment_id := appointment_id
        visit_date := now
        visit_summary := visit_summary
        medications := medications
        instructions := instructions
        next_appointment := next_appointment
        created_at := now }
    let db1 : DB :=
      { db with post_visit_records := db.post_visit_records ++ [visit_record]
                next_visit_record_id := visit_record_id + 1 }
    let db2 : DB :=
      if medications.isEmpty then db1
      else
        let current_meds := medications.map medJoinStr
        let patient2 := { patient with current_medication := some (String.intercalate "; " current_meds) }
        { db1 with patients := setKey db1.patients patient.id patient2 }
    .ok (visit_record_id, db2)
  | _, _ => .error "Patient or doctor not found"

/-- `add_post_visit_record` as observed by callers: the surrounding
`try`/`except` turns the raised error into a `None` return with the store
untouched. -/
def add_post_visit_record (db : DB) (now : Int)
    (patient_email doctor_email visit_summary : String) (medications : List Medication)
    (instructions next_appointment : Option String) (appointment_id : Option Nat) :
    Option Nat × DB :=
  match add_post_visit_record_checked db now patient_email doctor_email visit_summary
      medications instructions next_appointment appointment_id with
  | .ok (visit_record_id, db2) => (some visit_record_id, db2)
  | .error _ => (none, db)

/-- The per-medication string built in `update_patient_current_medications`
(`main.py` lines 1167-1209): name, then dosage and frequency when truthy. -/
def medSummaryStr (m : Medication) : String :=
  m.name
    ++ (if m.dosage ≠ "" then " " ++ m.dosage else "")
    ++ (if m.frequency ≠ "" then " (" ++ m.frequency ++ ")" else "")

/-- `update_patient_current_medications` (`main.py` lines 1167-1209): appends
the new medications (those with a truthy name other than the placeholder
`"Prescribed medication"`) to the patient's existing summary via `add_patient`. -/
def update_patient_current_medications (db : DB) (now : Int) (patient_email : String)
    (new_medications : List Medication) : Bool × DB :=
  match get_patient_by_email db patient_email with
  | none => (false, db)
  | some patient =>
    let existing_medication := optStr patient.current_medication
    let new_med_strings :=
      (new_medications.filter
        (fun m => m.name ≠ "" && m.name ≠ "Prescribed medication")).map medSummaryStr
    if new_med_strings.isEmpty then (false, db)
    else
      let new_med_text := String.intercalate ", " new_med_strings
      let updated_medication :=
        if existing_medication ≠ "" then existing_medication ++ ", " ++ new_med_text
        else new_med_text
      let db2 := (add_patient db now patient_email patient.name
        patient.medical_history (some updated_medication) none).2
      (true, db2)

/-- The store effect of `send_post_visit_summary` (`main.py` lines 860-985)
once the medications have been parsed: first
`update_patient_current_medications` (only when some medications were parsed),
then `add_post_visit_record` with the same medication list.  Email and
calendar calls do not touch the store. -/
def send_post_visit_summary_store (db : DB) (now : Int)
    (patient_email doctor_email visit_summary : String)
    (parsed_medications : List Medication)
    (instructions next_appointment : Option String) : Option Nat × DB :=
  let db1 :=
    if parsed_medications.isEmpty then db
    else (update_patient_current_medications db now patient_email parsed_medications).2
  add_post_visit_record db1 now patient_email doctor_email visit_summary
    parsed_medications instructions next_appointment none

/- ## Doctor selection (`get_doctors_by_specialization`) -/

/-- The dicts built by `get_doctors_by_specialization` (id is the dict key). -/
structure DoctorListing where
  id : Nat
  email : String
  name : String
  specialization : String
  days_available : Option String
  created_at : Int
  deriving Repr, DecidableEq

/-- Stable insertion keeping existing equal-key elements first (the behaviour
of Python `list.sort`, which is stable). -/
def insertStable {α : Type} (le : α → α → Bool) (a : α) : List α → List α
  | [] => [a]
  | b :: t => if le b a then b :: insertStable le a t else a :: b :: t

/-- Stable sort by a boolean total preorder. -/
def stableSortBy {α : Type} (le : α → α → Bool) (l : List α) : List α :=
  l.foldl (fun acc a => insertStable le a acc) []

/-- The sort key `(x["specialization"] != specialization, x["name"])` compared
lexicographically (`False < True` on the first component). -/
def doctorSortLe (specialization : String) (a b : DoctorListing) : Bool :=
  let ka : Bool := a.specialization ≠ specialization
  let kb : Bool := b.specialization ≠ specialization
  (!ka && kb) || (ka == kb && (listLtChars a.name.data b.name.data || a.name == b.name))

/-- `get_doctors_by_specialization` (`database.py` lines 192-208): filter by
case-insensitive substring match (or the `"General Medicine"` fallback), then
stable-sort exact specialization matches first, ties broken by name. -/
def get_doctors_by_specialization (db : DB) (specialization : String) : List DoctorListing  :=
  let doctors :=
    (db.doctors.filter
      (fun kv => strContains (pyLower kv.2.specialization) (pyLower specialization)
        || kv.2.specialization == "General Medicine")).map
      (fun kv => { id := kv.1, email := kv.2.email, name := kv.2.name
                   specialization := kv.2.specialization
                   days_available := kv.2.days_available
                   created_at := kv.2.created_at : DoctorListing })
  stableSortBy (doctorSortLe specialization) doctors

/-- `doctors[0]` after the sort: the doctor the booking flow selects. -/
def selectedDoctor (db : DB) (specialization : String) : Option DoctorListing :=
  (get_doctors_by_specialization db specialization).head?

/- ## The booking tool (`book_appointment_with_doctor`, `main.py` 353-539) -/

/-- Normalization applied to symptom text in the duplicate-symptom check:
`.strip().lower()`. -/
def normSymptom (s : String) : String := pyLower (pyStrip s)

inductive BookResult where
  /-- "The selected appointment time ... is in the past." -/
  | invalidPast
  /-- "The selected appointment time is more than 60 days in the future." -/
  | tooFar
  /-- "You already have a scheduled appointment" (7-day policy), with the id
  of the first existing appointment reported. -/
  | duplicateBooking (existingId : Nat)
  /-- "Similar appointment detected within 24 hours", with the id of the first
  matching appointment reported. -/
  | duplicateSymptom (recentId : Nat)
  /-- "Multiple booking attempt detected" (10-minute cooldown). -/
  | rateLimited (recentId : Nat)
  /-- "No doctors found for specialization". -/
  | noDoctorFound
  /-- "Doctor Not Available": conflicting appointment within the ±1-hour
  window for the selected doctor. -/
  | doctorConflict (doctorEmail : String) (conflictTime : Int)
  /-- "An appointment was just created for you" (final race-condition check). -/
  | raceDetected
  /-- Reached the generic `except` handler (cannot happen in this model; kept
  for the `create_appointment` failure path). -/
  | bookError
  /-- "Appointment booked successfully". -/
  | booked (appointmentId : Nat) (doctorEmail : String) (time : Int)
  deriving Repr, DecidableEq

/-- `book_appointment_with_doctor` after the natural-language parse succeeded
(`appointment_datetime = t`).  Mirrors the source order: time-window checks,
the three patient duplicate checks over `all_appointments`, the patient
upsert, doctor selection, the doctor-conflict check (still over
`all_appointments`), the final race-condition re-check over the refetched
list, then `create_appointment`.  The Google-calendar step only produces the
external `google_event_id` (modelled `none`) and cannot touch the store. -/
def book_appointment_with_doctor (db : DB) (now : Int)
    (patient_email patient_name symptoms : String) (t : Int) (specialization : String) :
    BookResult × DB :=
  if t ≤ now then (.invalidPast, db)
  else if now + 60 * 86400 < t then (.tooFar, db)
  else
    let all_appointments := db.appointments
    let patient_scheduled_appointments := all_appointments.filter
      (fun apt => apt.patient_email == patient_email
        && apt.status == "scheduled"
        && decide (0 < apt.appointment_date - now)
        && decide (apt.appointment_date - now < 604800))
    match patient_scheduled_appointments with
    | existing_apt :: _ => (.duplicateBooking existing_apt.id, db)
    | [] =>
    let recent_similar_appointments := all_appointments.filter
      (fun apt => apt.patient_email == patient_email
        && normSymptom apt.symptoms == normSymptom symptoms
        && (apt.status == "scheduled" || apt.status == "completed")
        && decide (now - apt.created_at < 86400))
    match recent_similar_appointments with
    | recent_apt :: _ => (.duplicateSymptom recent_apt.id, db)
    | [] =>
    let very_recent_appointments := all_appointments.filter
      (fun apt => apt.patient_email == patient_email
        && decide (now - apt.created_at < 600))
    match very_recent_appointments with
    | recent_apt :: _ => (.rateLimited recent_apt.id, db)
    | [] =>
    let db1 := (add_patient db now patient_email patient_name none none none).2
    match get_doctors_by_specialization db1 specialization with
    | [] => (.noDoctorFound, db1)
    | selected_doctor :: _ =>
    let doctor_appointments_at_time := all_appointments.filter
      (fun apt => apt.doctor_email == selected_doctor.email
        && apt.status == "scheduled"
        && decide ((apt.appointment_date - t).natAbs < 3600))
    match doctor_appointments_at_time with
    | conflicting_apt :: _ =>
      (.doctorConflict selected_doctor.email conflicting_apt.appointment_date, db1)
    | [] =>
    let final_duplicate_check := db1.appointments.filter
      (fun apt => apt.patient_email == patient_email
        && apt.status == "scheduled"
        && decide (now - apt.created_at < 60))
    match final_duplicate_check with
    | _ :: _ => (.raceDetected, db1)
    | [] =>
    match create_appointment db1 now patient_email selected_doctor.email symptoms t none with
    | some (appointment_id, db2) => (.booked appointment_id selected_doctor.email t, db2)
    | none => (.bookError, db1)

/- ## Appointment completion (`complete_appointment_and_collect_visit_data`) -/

inductive CompleteResult where
  /-- "No appointment found with ID". -/
  | notFound
  /-- "Access denied. This appointment belongs to a different doctor." -/
  | accessDenied
  /-- "Appointment ... is already marked as completed." (no-op signal) -/
  | alreadyCompleted
  /-- "Failed to update appointment status." -/
  | updateFailed
  /-- "Appointment ... marked as COMPLETED". -/
  | completedOk
  deriving Repr, DecidableEq

/-- `complete_appointment_and_collect_visit_data` (`main.py` lines 731-798),
store-relevant behaviour. -/
def complete_appointment_and_collect_visit_data (db : DB) (now : Int)
    (appointment_id : Nat) (doctor_email : String) : CompleteResult × DB :=
  match get_appointment_by_id db appointment_id with
  | none => (.notFound, db)
  | some appointment =>
    if appointment.doctor_email ≠ doctor_email then (.accessDenied, db)
    else if appointment.appointment_completed then (.alreadyCompleted, db)
    else
      match update_appointment_completion_status db now appointment_id true with
      | (true, db2) => (.completedOk, db2)
      | (false, db2) => (.updateFailed, db2)

/- ## Loading persisted state (`load_data`, `database.py` lines 11-49) -/

/-- An appointment dict as it may appear in an older persisted document: the
`appointment_completed` key may be absent. -/
structure RawAppointment where
  id : Nat
  patient_id : Nat
  patient_email : String
  doctor_id : Nat
  doctor_email : String
  symptoms : String
  appointment_date : Int
  status : String
  appointment_completed : Option Bool
  google_event_id : Option String
  created_at : Int
  completed_at : Option Int
  deriving Repr, DecidableEq

/-- A successfully parsed persisted document.  Top-level keys may be absent
(`Option`); `load_data` backfills only the counters, `post_visit_records` and
the per-appointment completion flag. -/
structure RawDoc where
  patients : Option (List (Nat × Patient))
  doctors : Option (List (Nat × Doctor))
  appointments : Option (List RawAppointment)
  post_visit_records : Option (List VisitRecord)
  next_patient_id : Option Nat
  next_doctor_id : Option Nat
  next_appointment_id : Option Nat
  next_visit_record_id : Option Nat
  deriving Repr, DecidableEq

/-- The migration step: `if "appointment_completed" not in appointment:
appointment["appointment_completed"] = False`. -/
def migrateAppointment (r : RawAppointment) : Appointment :=
  { id := r.id
    patient_id := r.patient_id, patient_email := r.patient_email
    doctor_id := r.doctor_id, doctor_email := r.doctor_email
    symptoms := r.symptoms
    appointment_date := r.appointment_date
    status := r.status
    appointment_completed := r.appointment_completed.getD false
    google_event_id := r.google_event_id
    created_at := r.created_at
    completed_at := r.completed_at }

/-- The shape of `self.data` right after `load_data` returns: counters and
`post_visit_records` are always present (backfilled), while the three entity
collections are only present when the loaded document had them. -/
structure LoadedData where
  patients : Option (List (Nat × Patient))
  doctors : Option (List (Nat × Doctor))
  appointments : Option (List Appointment)
  post_visit_records : List VisitRecord
  next_patient_id : Nat
  next_doctor_id : Nat
  next_appointment_id : Nat
  next_visit_record_id : Nat
  deriving Repr, DecidableEq

/-- `load_data`: `none` models an absent file as well as any read or JSON
failure (the bare `except` swallows every error and falls through to the
default structure); `some raw` models a readable document. -/
def load_data (input : Option RawDoc) : LoadedData :=
  match input with
  | none =>
    { patients := some [], doctors := some [], appointments := some []
      post_visit_records := []
      next_patient_id := 1, next_doctor_id := 1
      next_appointment_id := 1, next_visit_record_id := 1 }
  | some raw =>
    { patients := raw.patients
      doctors := raw.doctors
      appointments := raw.appointments.map (List.map migrateAppointment)
      post_visit_records := raw.post_visit_records.getD []
      next_patient_id := raw.next_patient_id.getD 1
      next_doctor_id := raw.next_doctor_id.getD 1
      next_appointment_id := raw.next_appointment_id.getD 1
      next_visit_record_id := raw.next_visit_record_id.getD 1 }

/- ## Natural-language date parsing
(`parse_natural_language_datetime`, date section, `main.py` lines 32-124)

Dates are modelled as `Int` days since 1970-01-01 (the proleptic Gregorian
day count), so `current_date + timedelta(days=n)` is `current + n`. -/

/-- Day count since 1970-01-01 of a Gregorian calendar date (the standard
`days_from_civil` computation; division truncates toward zero exactly as the
intermediate values require for years ≥ 0, and the era shift handles the
rest). -/
def daysFromCivil (y m d : Int) : Int :=
  let y2 := if m ≤ 2 then y - 1 else y
  let era := (if 0 ≤ y2 then y2 else y2 - 399) / 400
  let yoe := y2 - era * 400
  let mp := (m + 9) % 12
  let doy := (153 * mp + 2) / 5 + d - 1
  let doe := yoe * 365 + yoe / 4 - yoe / 100 + doy
  era * 146097 + doe - 719468

/-- Python `date.weekday()`: Monday = 0 … Sunday = 6 (1970-01-01 was a
Thursday, weekday 3). -/
def pyWeekday (days : Int) : Int := (days + 3) % 7

/-- The `days_of_week` dict in the source. -/
def weekdayIndex (day_name : String) : Option Int :=
  if day_name == "monday" then some 0
  else if day_name == "tuesday" then some 1
  else if day_name == "wednesday" then some 2
  else if day_name == "thursday" then some 3
  else if day_name == "friday" then some 4
  else if day_name == "saturday" then some 5
  else if day_name == "sunday" then some 6
  else none

/-- `days_ahead = target - current; if days_ahead <= 0: days_ahead += 7`. -/
def nextWeekdayDaysAhead (target cur : Int) : Int :=
  let days_ahead := target - cur
  if days_ahead ≤ 0 then days_ahead + 7 else days_ahead

/-- Value of a digit run (the group `(\d+)`). -/
def natOfDigits (cs : List Char) : Nat :=
  cs.foldl (fun n c => n * 10 + (c.toNat - 48)) 0

/-- Try to match `in (\d+) (day|days|week|weeks)` at this exact position,
returning the day offset (`\d+` is greedy over a maximal digit run, and the
alternation only needs `day`/`week` as a prefix of the remainder, exactly like
the unanchored regex). -/
def matchInAt : List Char → Option Nat
  | 'i' :: 'n' :: ' ' :: rest =>
    let ds := rest.takeWhile Char.isDigit
    let rest2 := rest.dropWhile Char.isDigit
    if ds.isEmpty then none
    else
      match rest2 with
      | ' ' :: rest3 =>
        if listStarts "day".data rest3 then some (natOfDigits ds)
        else if listStarts "week".data rest3 then some (7 * natOfDigits ds)
        else none
      | _ => none
  | _ => none

/-- `re.search` for the `in N days/weeks` pattern: first matching position. -/
def searchInPattern : List Char → Option Nat
  | [] => none
  | c :: t =>
    match matchInAt (c :: t) with
    | some n => some n
    | none => searchInPattern t

/-- Leap year (Gregorian). -/
def isLeapYear (y : Int) : Bool :=
  (y.emod 4 == 0 && y.emod 100 != 0) || y.emod 400 == 0

def daysInMonth (y m : Int) : Int :=
  if m = 2 then (if isLeapYear y then 29 else 28)
  else if m = 4 ∨ m = 6 ∨ m = 9 ∨ m = 11 then 30
  else 31

/-- `strptime` `%Y`: exactly four digits. -/
def parseYear4 (cs : List Char) : Option Nat :=
  if cs.length = 4 && cs.all Char.isDigit then some (natOfDigits cs) else none

/-- `strptime` `%m`/`%d`: one or two digits within the given range. -/
def parse2Digit (cs : List Char) (lo hi : Nat) : Option Nat :=
  if 1 ≤ cs.length && cs.length ≤ 2 && cs.all Char.isDigit then
    let n := natOfDigits cs
    if lo ≤ n && n ≤ hi then some n else none
  else none

/-- Final calendar validation performed by `datetime.strptime` when it builds
the date (rejects e.g. February 31). -/
def mkValidDate (y m d : Nat) : Option Int :=
  if 1 ≤ d && (d : Int) ≤ daysInMonth (y : Int) (m : Int) then
    some (daysFromCivil (y : Int) (m : Int) (d : Int))
  else none

/-- One `datetime.strptime(date_input, fmt)` attempt, for a format made of a
year/month/day permutation joined by a single separator character. -/
def tryThreePart (s : String) (sep : Char) (yFirst : Bool) (dayBeforeMonth : Bool) : Option Int :=
  match splitOnChar sep s.data with
  | [a, b, c] =>
    if yFirst then
      match parseYear4 a, parse2Digit b 1 12, parse2Digit c 1 31 with
      | some y, some m, some d => mkValidDate y m d
      | _, _, _ => none
    else
      let (mStr, dStr) := if dayBeforeMonth then (b, a) else (a, b)
      match parseYear4 c, parse2Digit mStr 1 12, parse2Digit dStr 1 31 with
      | some y, some m, some d => mkValidDate y m d
      | _, _, _ => none
  | _ => none

/-- The loop over `date_formats = ['%Y-%m-%d', '%m/%d/%Y', '%d/%m/%Y',
'%m-%d-%Y']`, first success wins. -/
def tryDateFormats (s : String) : Option Int :=
  match tryThreePart s '-' true false with
  | some d => some d
  | none =>
    match tryThreePart s '/' false false with
    | some d => some d
    | none =>
      match tryThreePart s '/' false true with
      | some d => some d
      | none => tryThreePart s '-' false false

/-- The date-parsing section of `parse_natural_language_datetime` (`main.py`
lines 32-124): `none` is `target_date is None`, which makes the function
return `(None, False, "Could not understand date: ...")` — the `ParseError`
outcome — before any timestamp is produced. -/
def parseDateInput (date_input : String) (current : Int) : Option Int :=
  let s := pyStrip (pyLower date_input)
  if s == "today" then some current
  else if s == "tomorrow" then some (current + 1)
  else if s == "day after tomorrow" then some (current + 2)
  else if strStarts s "next " then
    let day_name := pyStrip (strReplace s "next " "")
    match weekdayIndex day_name with
    | some target => some (current + nextWeekdayDaysAhead target (pyWeekday current))
    | none => none
  else if strStarts s "in " then
    match searchInPattern s.data with
    | some n => some (current + (n : Int))
    | none => none
  else tryDateFormats s

/- ## Operation sequences over the store (for the identifier invariant) -/

/-- The store operations that create or remove appointments. -/
inductive StoreOp where
  | createApt (now : Int) (patient_email doctor_email symptoms : String) (t : Int)
  | deleteApt (appointment_id : Nat)
  deriving Repr, DecidableEq

/-- Apply one operation; the second component is the identifier issued by a
successful insert. -/
def applyOp (db : DB) : StoreOp → DB × Option Nat
  | .createApt now pe de sym t =>
    match create_appointment db now pe de sym t none with
    | some (i, db2) => (db2, some i)
    | none => (db, none)
  | .deleteApt i => ((delete_appointment db i).2, none)

/-- Run a sequence of operations, collecting every issued identifier in
order. -/
def runOps (db : DB) : List StoreOp → DB × List Nat
  | [] => (db, [])
  | op :: rest =>
    let r := applyOp db op
    let rr := runOps r.1 rest
    (rr.1, r.2.toList ++ rr.2)

/- ## Booking admissibility rules, stated independently of the tool -/

/-- Rule 1 violated: candidate time not strictly in the future, or more than
60 days ahead. -/
def ruleTimeViolated (now t : Int) : Bool :=
  decide (t ≤ now) || decide (now + 60 * 86400 < t)

/-- Rule 2 (7-day lookahead): the first scheduled appointment of the patient
within 7 days, `none` when the rule passes. -/
def firstWeekViolation (db : DB) (now : Int) (patient_email : String) : Option Appointment :=
  (db.appointments.filter (fun apt => apt.patient_email == patient_email
    && apt.status == "scheduled"
    && decide (0 < apt.appointment_date - now)
    && decide (apt.appointment_date - now < 604800))).head?

/-- Rule 3 (duplicate symptoms): the first scheduled-or-completed appointment
with trim/case identical symptom text created within 24 hours. -/
def firstSymptomViolation (db : DB) (now : Int) (patient_email symptoms : String) :
    Option Appointment :=
  (db.appointments.filter (fun apt => apt.patient_email == patient_email
    && normSymptom apt.symptoms == normSymptom symptoms
    && (apt.status == "scheduled" || apt.status == "completed")
    && decide (now - apt.created_at < 86400))).head?

/-- Rule 4 (10-minute cooldown): the first appointment of the patient created
within 600 seconds. -/
def firstCooldownViolation (db : DB) (now : Int) (patient_email : String) :
    Option Appointment :=
  (db.appointments.filter (fun apt => apt.patient_email == patient_email
    && decide (now - apt.created_at < 600))).head?

/-- Rule 5 (doctor conflict): the first scheduled appointment of the doctor
strictly inside the ±1-hour window around the candidate time. -/
def firstDoctorConflict (appointments : List Appointment) (doctor_email : String) (t : Int) :
    Option Appointment :=
  (appointments.filter (fun apt => apt.doctor_email == doctor_email
    && apt.status == "scheduled"
    && decide ((apt.appointment_date - t).natAbs < 3600))).head?

/-- The rejections that can only occur after the patient upsert has been
persisted (no doctor found, doctor conflict, race-condition re-check). -/
def isPostUpsertRejection : BookResult → Bool
  | .noDoctorFound => true
  | .doctorConflict _ _ => true
  | .raceDetected => true
  | _ => false

/-- Flag/status consistency for a single appointment. -/
def flagMatchesStatus (a : Appointment) : Bool :=
  a.appointment_completed == (a.status == "completed")

/- ## Concrete fixtures used to evaluate the definitions -/

def alicePatient : Patient :=
  { id := 1, name := "Alice", email := "alice@example.com", role := "Patient"
    medical_history := none, current_medication := some "Aspirin 81mg"
    current_symptoms := none, created_at := 0 }

def bobDoctor : Doctor :=
  { id := 1, name := "Bob", email := "bob@example.com", role := "Doctor"
    specialization := "General Medicine", days_available := none, created_at := 0 }

/-- A store with one patient (who already has a medication summary) and one
doctor, and no appointments. -/
def baseDB : DB :=
  { patients := [(1, alicePatient)], doctors := [(1, bobDoctor)]
    appointments := [], post_visit_records := []
    next_patient_id := 2, next_doctor_id := 2
    next_appointment_id := 1, next_visit_record_id := 1 }

/-- The medication scenario of the spec: one Amoxicillin entry. -/
def amoxicillin : Medication :=
  { name := "Amoxicillin", dosage := "500mg", frequency := "twice daily"
    duration := "", instructions := "" }

/-- An appointment of Alice with Bob, scheduled two days ahead of `now = 10 ^ 6`,
created at time 0 (long before any cooldown window). -/
def apt1 : Appointment :=
  { id := 1, patient_id := 1, patient_email := "alice@example.com"
    doctor_id := 1, doctor_email := "bob@example.com"
    symptoms := "Headache", appointment_date := 1000000 + 2 * 86400
    status := "scheduled", appointment_completed := false
    google_event_id := none, created_at := 0, completed_at := none }

/-- A second patient, used so that a doctor-side conflict does not trip the
patient-side checks. -/
def carolPatient : Patient :=
  { id := 2, name := "Carol", email := "carol@example.com", role := "Patient"
    medical_history := none, current_medication := none
    current_symptoms := none, created_at := 0 }

/-- Bob has a scheduled appointment with Carol 30 minutes after the candidate
time `10 ^ 6 + 86400` used in the conflict witness. -/
def carolApt : Appointment :=
  { id := 1, patient_id := 2, patient_email := "carol@example.com"
    doctor_id := 1, doctor_email := "bob@example.com"
    symptoms := "Cough", appointment_date := 1000000 + 86400 + 1800
    status := "scheduled", appointment_completed := false
    google_event_id := none, created_at := 0, completed_at := none }

def conflictDB : DB :=
  { baseDB with patients := [(1, alicePatient), (2, carolPatient)]
                appointments := [carolApt]
                next_patient_id := 3, next_appointment_id := 2 }

/-- Alice already has `apt1` scheduled two days out, so that a new booking
violates both the 7-day rule and the duplicate-symptom rule at once. -/
def dupDB : DB :=
  { baseDB with appointments := [{ apt1 with created_at := 999000 }]
                next_appointment_id := 2 }

/-- Store with one scheduled appointment of Alice with Bob. -/
def schedDB : DB :=
  { baseDB with appointments := [apt1], next_appointment_id := 2 }

/-- `apt1` after it has been completed at time 1500000. -/
def apt1Done : Appointment :=
  { apt1 with
      appointment_completed := true, status := "completed",
      completed_at := some 1500000 }

/-- Store whose only appointment is already completed. -/
def doneDB : DB :=
  { baseDB with appointments := [apt1Done], next_appointment_id := 2 }

/-- A persisted document holding one already-completed appointment written
before the completion flag existed. -/
def oldCompletedRawApt : RawAppointment :=
  { id := 1, patient_id := 1, patient_email := "alice@example.com"
    doctor_id := 1, doctor_email := "bob@example.com"
    symptoms := "Headache", appointment_date := 500000
    status := "completed", appointment_completed := none
    google_event_id := none, created_at := 0, completed_at := none }

def oldRawDoc : RawDoc :=
  { patients := some [(1, alicePatient)], doctors := some [(1, bobDoctor)]
    appointments := some [oldCompletedRawApt]
    post_visit_records := none
    next_patient_id := some 2, next_doctor_id := some 2
    next_appointment_id := some 2, next_visit_record_id := none }

/- ## Helper lemmas -/

theorem mem_setKey {α : Type} (l : List (Nat × α)) (k : Nat) (v : α) :
    (k, v) ∈ setKey l k v := by
  induction l with
  | nil => simp [setKey]
  | cons kv t ih =>
    obtain ⟨k0, v0⟩ := kv
    simp only [setKey]
    split
    · exact List.mem_cons_self _ _
    · exact List.mem_cons_of_mem _ ih

theorem mem_of_setKey {α : Type} (l : List (Nat × α)) (k : Nat) (v : α) :
    ∀ x ∈ setKey l k v, x ∈ l ∨ x = (k, v) := by
  induction l with
  | nil => intro x hx; simp [setKey] at hx; simp [hx]
  | cons kv t ih =>
    obtain ⟨k0, v0⟩ := kv
    intro x hx
    simp only [setKey] at hx
    split at hx
    · rcases List.mem_cons.mp hx with h | h
      · right; exact h
      · left; exact List.mem_cons_of_mem _ h
    · rcases List.mem_cons.mp hx with h | h
      · left; simp [h]
      · rcases ih x h with h2 | h2
        · left; exact List.mem_cons_of_mem _ h2
        · right; exact h2

theorem find?_pred_of_mem {α : Type} (l : List α) (p : α → Bool) (a : α)
    (ha : a ∈ l) (hp : p a = true) : ∃ b, l.find? p = some b ∧ p b = true := by
  have h1 : (l.find? p).isSome := List.find?_isSome.mpr ⟨a, ha, hp⟩
  obtain ⟨b, hb⟩ := Option.isSome_iff_exists.mp h1
  exact ⟨b, hb, List.find?_some hb⟩

theorem head?_some_cons {α : Type} {l : List α} {a : α} (h : l.head? = some a) :
    ∃ t, l = a :: t := by
  cases l with
  | nil => simp at h
  | cons b t =>
    simp only [List.head?_cons, Option.some.injEq] at h
    exact ⟨t, by rw [h]⟩

theorem add_patient_other_fields (db : DB) (now : Int) (e n : String)
    (mh cm cs : Option String) :
    ((add_patient db now e n mh cm cs).2).appointments = db.appointments
    ∧ ((add_patient db now e n mh cm cs).2).doctors = db.doctors
    ∧ ((add_patient db now e n mh cm cs).2).next_appointment_id = db.next_appointment_id
    ∧ ((add_patient db now e n mh cm cs).2).post_visit_records = db.post_visit_records
    ∧ ((add_patient db now e n mh cm cs).2).next_visit_record_id = db.next_visit_record_id := by
  unfold add_patient
  cases hm : get_patient_by_email db e <;> simp

theorem add_patient_email_found (db : DB) (now : Int) (e n : String)
    (mh cm cs : Option String) :
    ∃ p, get_patient_by_email (add_patient db now e n mh cm cs).2 e = some p
      ∧ p.email = e := by
  have key : ∀ (l : List (Nat × Patient)) (k : Nat) (v : Patient), v.email = e →
      ∃ p, (List.map Prod.snd (setKey l k v)).find? (fun q => q.email == e) = some p
        ∧ p.email = e := by
    intro l k v hv
    obtain ⟨b, hb, hpb⟩ := find?_pred_of_mem (List.map Prod.snd (setKey l k v))
      (fun q => q.email == e) v (List.mem_map.mpr ⟨(k, v), mem_setKey l k v, rfl⟩)
      (by simp [hv])
    exact ⟨b, hb, by simpa using hpb⟩
  unfold add_patient
  cases hm : get_patient_by_email db e with
  | some existing => exact key db.patients existing.id _ rfl
  | none => exact key db.patients db.next_patient_id _ rfl

theorem doctor_email_found (db : DB) (e : String) (kv : Nat × Doctor)
    (hm : kv ∈ db.doctors) (he : kv.2.email = e) :
    ∃ d, get_doctor_by_email db e = some d ∧ d.email = e := by
  obtain ⟨b, hb, hpb⟩ := find?_pred_of_mem (List.map Prod.snd db.doctors)
    (fun q => q.email == e) kv.2 (List.mem_map.mpr ⟨kv, hm, rfl⟩) (by simp [he])
  exact ⟨b, hb, by simpa using hpb⟩

theorem mem_insertStable {α : Type} (le : α → α → Bool) (a x : α) (l : List α) :
    x ∈ insertStable le a l ↔ x = a ∨ x ∈ l := by
  induction l with
  | nil => simp [insertStable]
  | cons b t ih =>
    simp only [insertStable]
    split
    · rw [List.mem_cons, ih, List.mem_cons]
      tauto
    · rw [List.mem_cons, List.mem_cons]

theorem mem_stableSortBy {α : Type} (le : α → α → Bool) (l : List α) (x : α) :
    x ∈ stableSortBy le l ↔ x ∈ l := by
  have key : ∀ (m : List α) (acc : List α),
      x ∈ m.foldl (fun acc a => insertStable le a acc) acc ↔ x ∈ acc ∨ x ∈ m := by
    intro m
    induction m with
    | nil => intro acc; simp
    | cons a t ih =>
      intro acc
      rw [List.foldl_cons, ih, mem_insertStable, List.mem_cons]
      tauto
  rw [stableSortBy, key]
  simp

theorem selectedDoctor_email_in_db (db : DB) (spec : String) (doc : DoctorListing)
    (h : selectedDoctor db spec = some doc) :
    ∃ kv, kv ∈ db.doctors ∧ kv.2.email = doc.email := by
  obtain ⟨t, ht⟩ := head?_some_cons h
  have hmem : doc ∈ get_doctors_by_specialization db spec := by
    rw [ht]; exact List.mem_cons_self _ _
  unfold get_doctors_by_specialization at hmem
  rw [mem_stableSortBy] at hmem
  obtain ⟨kv, hkv, heq⟩ := List.mem_map.mp hmem
  refine ⟨kv, List.mem_of_mem_filter hkv, ?_⟩
  rw [← heq]

theorem removeFirst_subset (i : Nat) :
    ∀ (l l2 : List Appointment), removeFirstAppointment l i = some l2 →
      ∀ a ∈ l2, a ∈ l := by
  intro l
  induction l with
  | nil => intro l2 h; simp [removeFirstAppointment] at h
  | cons b t ih =>
    intro l2 h a ha
    simp only [removeFirstAppointment] at h
    split at h
    · simp only [Option.some.injEq] at h
      subst h
      exact List.mem_cons_of_mem _ ha
    · cases hr : removeFirstAppointment t i with
      | none => rw [hr] at h; simp at h
      | some t2 =>
        rw [hr] at h
        simp only [Option.map_some', Option.some.injEq] at h
        subst h
        rcases List.mem_cons.mp ha with h2 | h2
        · simp [h2]
        · exact List.mem_cons_of_mem _ (ih t2 hr a h2)

theorem applyCompletion_id (now : Int) (c : Bool) (a : Appointment) :
    (applyCompletion now c a).id = a.id := by
  unfold applyCompletion
  split <;> rfl

theorem updateFirst_mem (now : Int) (c : Bool) (i : Nat) :
    ∀ (l l2 : List Appointment), updateFirstAppointment now c l i = some l2 →
      ∀ a ∈ l2, a ∈ l ∨ ∃ b, b ∈ l ∧ a = applyCompletion now c b := by
  intro l
  induction l with
  | nil => intro l2 h; simp [updateFirstAppointment] at h
  | cons b t ih =>
    intro l2 h a ha
    simp only [updateFirstAppointment] at h
    split at h
    · simp only [Option.some.injEq] at h
      subst h
      rcases List.mem_cons.mp ha with h2 | h2
      · right; exact ⟨b, List.mem_cons_self _ _, h2⟩
      · left; exact List.mem_cons_of_mem _ h2
    · cases hr : updateFirstAppointment now c t i with
      | none => rw [hr] at h; simp at h
      | some t2 =>
        rw [hr] at h
        simp only [Option.map_some', Option.some.injEq] at h
        subst h
        rcases List.mem_cons.mp ha with h2 | h2
        · left; simp [h2]
        · rcases ih t2 hr a h2 with h3 | ⟨b2, hb2, he2⟩
          · left; exact List.mem_cons_of_mem _ h3
          · right; exact ⟨b2, List.mem_cons_of_mem _ hb2, he2⟩

theorem updateFirst_find (now : Int) (i : Nat) :
    ∀ (l : List Appointment) (apt : Appointment),
      l.find? (fun a => a.id == i) = some apt →
      ∃ l2, updateFirstAppointment now true l i = some l2
        ∧ l2.find? (fun a => a.id == i) = some (applyCompletion now true apt) := by
  intro l
  induction l with
  | nil => intro apt h; simp at h
  | cons b t ih =>
    intro apt h
    by_cases hb : b.id = i
    · rw [List.find?_cons_of_pos _ (by simpa using hb)] at h
      simp only [Option.some.injEq] at h
      subst h
      refine ⟨applyCompletion now true b :: t, ?_, ?_⟩
      · simp [updateFirstAppointment, hb]
      · rw [List.find?_cons_of_pos]
        simp [applyCompletion_id, hb]
    · rw [List.find?_cons_of_neg _ (by simpa using hb)] at h
      obtain ⟨l2, h1, h2⟩ := ih apt h
      refine ⟨b :: l2, ?_, ?_⟩
      · simp [updateFirstAppointment, hb, h1]
      · rw [List.find?_cons_of_neg _ (by simpa using hb)]
        exact h2

/- ## Claim theorems -/

/-- Claim C1: the claim says recording a post-visit summary APPENDS the new
medications to the patient's existing medication summary.  The code's helper
`update_patient_current_medications` does append, but `add_post_visit_record`
then overwrites the summary with the `"; "`-join of only the new entries, so
after the full post-visit flow the prior summary `"Aspirin 81mg"` is gone —
the summary is replaced, not appended to. -/
theorem c1_medication_fold_replaced_not_appended :
    (get_patient_by_email (update_patient_current_medications baseDB 5000
        "alice@example.com" [amoxicillin]).2 "alice@example.com").map
      (fun p => p.current_medication)
      = some (some "Aspirin 81mg, Amoxicillin 500mg (twice daily)")
    ∧ (get_patient_by_email (send_post_visit_summary_store baseDB 5000 "alice@example.com"
        "bob@example.com" "Visit summary" [amoxicillin] none none).2 "alice@example.com").map
      (fun p => p.current_medication)
      = some (some "Amoxicillin - 500mg - twice daily")
    ∧ strContains "Amoxicillin - 500mg - twice daily" "Aspirin 81mg" = false :=
  ⟨rfl, rfl, rfl⟩

/-- Claim C5: inserting a visit record whose patient or doctor email does not
resolve raises the not-found `ValueError` inside `add_post_visit_record`, and
the caller-visible outcome is a `None` id with the store left completely
unchanged (no record appended, no counter advanced, no medication change). -/
theorem c5_visit_record_missing_reference (db : DB) (now : Int)
    (pe de summary : String) (meds : List Medication)
    (instructions next_appointment : Option String) (aid : Option Nat)
    (h : get_patient_by_email db pe = none ∨ get_doctor_by_email db de = none) :
    add_post_visit_record_checked db now pe de summary meds instructions next_appointment aid
      = .error "Patient or doctor not found"
    ∧ add_post_visit_record db now pe de summary meds instructions next_appointment aid
      = (none, db) := by
  have herr : add_post_visit_record_checked db now pe de summary meds instructions
      next_appointment aid = .error "Patient or doctor not found" := by
    unfold add_post_visit_record_checked
    cases hp : get_patient_by_email db pe with
    | none => cases hd : get_doctor_by_email db de <;> rfl
    | some p =>
      cases hd : get_doctor_by_email db de with
      | none => rfl
      | some d =>
        rcases h with h | h
        · rw [hp] at h; simp at h
        · rw [hd] at h; simp at h
  refine ⟨herr, ?_⟩
  unfold add_post_visit_record
  rw [herr]

/-- Claim C5 witness: a concrete store where the patient email does not
resolve. -/
theorem c5_visit_record_missing_reference_witness :
    add_post_visit_record_checked baseDB 5000 "zed@example.com" "bob@example.com" "s" []
      none none none = .error "Patient or doctor not found"
    ∧ add_post_visit_record baseDB 5000 "zed@example.com" "bob@example.com" "s" []
      none none none = (none, baseDB) :=
  c5_visit_record_missing_reference baseDB 5000 "zed@example.com" "bob@example.com" "s" []
    none none none (Or.inl rfl)

/-- Claim C7: "tomorrow" with reference date 2025-01-10 resolves to 2025-01-11;
"next Monday" from any Wednesday reference resolves to five days later, which
is a Monday and lies in the following week; "sometime soonish" fails to parse
for every reference date (the `ParseError` outcome, no timestamp produced). -/
theorem c7_natural_language_dates :
    parseDateInput "tomorrow" (daysFromCivil 2025 1 10) = some (daysFromCivil 2025 1 11)
    ∧ (∀ ref : Int, pyWeekday ref = 2 →
        parseDateInput "next Monday" ref = some (ref + 5)
        ∧ pyWeekday (ref + 5) = 0 ∧ ref < ref + 5)
    ∧ (∀ ref : Int, parseDateInput "sometime soonish" ref = none) := by
  refine ⟨by rfl, ?_, fun ref => by rfl⟩
  intro ref h
  have hstep : parseDateInput "next Monday" ref
      = some (ref + nextWeekdayDaysAhead 0 (pyWeekday ref)) := rfl
  refine ⟨?_, ?_, by omega⟩
  · rw [hstep, h]
    rfl
  · unfold pyWeekday at h ⊢
    omega

/-- Claim C7 witness: 2025-01-08 is a Wednesday; the theorem then sends
"next Monday" to 2025-01-13. -/
theorem c7_natural_language_dates_witness :
    parseDateInput "next Monday" (daysFromCivil 2025 1 8) = some (daysFromCivil 2025 1 8 + 5)
    ∧ pyWeekday (daysFromCivil 2025 1 8 + 5) = 0 := by
  have h := c7_natural_language_dates.2.1 (daysFromCivil 2025 1 8) (by rfl)
  exact ⟨h.1, h.2.1⟩

/-- Claim C8: loading an absent/unreadable/corrupted document yields the empty
well-formed default (empty collections, all four counters at 1), and loading a
readable document migrates every appointment, backfilling a missing completion
flag with `false` while keeping present flags and all other fields. -/
theorem c8_load_data_recovery_and_migration :
    (load_data none).patients = some [] ∧ (load_data none).doctors = some []
    ∧ (load_data none).appointments = some []
    ∧ (load_data none).post_visit_records = []
    ∧ (load_data none).next_patient_id = 1 ∧ (load_data none).next_doctor_id = 1
    ∧ (load_data none).next_appointment_id = 1 ∧ (load_data none).next_visit_record_id = 1
    ∧ (∀ raw : RawDoc, ∀ rawApts : List RawAppointment, raw.appointments = some rawApts →
        (load_data (some raw)).appointments = some (rawApts.map migrateAppointment))
    ∧ (∀ r : RawAppointment,
        (migrateAppointment r).appointment_completed = r.appointment_completed.getD false
        ∧ (migrateAppointment r).id = r.id ∧ (migrateAppointment r).status = r.status
        ∧ (migrateAppointment r).appointment_date = r.appointment_date
        ∧ (migrateAppointment r).completed_at = r.completed_at) := by
  refine ⟨rfl, rfl, rfl, rfl, rfl, rfl, rfl, rfl, ?_, ?_⟩
  · intro raw apts h
    simp [load_data, h]
  · intro r
    exact ⟨rfl, rfl, rfl, rfl, rfl⟩

/-- Claim C8 witness: a pre-flag document with one appointment gets the flag
backfilled to `false`. -/
theorem c8_load_data_recovery_and_migration_witness :
    (load_data (some oldRawDoc)).appointments = some [migrateAppointment oldCompletedRawApt]
    ∧ (migrateAppointment oldCompletedRawApt).appointment_completed = false := by
  obtain ⟨-, -, -, -, -, -, -, -, hmig, hfields⟩ := c8_load_data_recovery_and_migration
  refine ⟨hmig oldRawDoc [oldCompletedRawApt] rfl, ?_⟩
  simpa using (hfields oldCompletedRawApt).1

/-- Claim C9 counterexample: after migration-on-load of a pre-flag document
holding an appointment with `status = "completed"`, the backfilled completion
flag is `false` while the status is `"completed"`, so the flag does NOT agree
with the status after every operation. -/
theorem c9_flag_status_disagree_on_migration :
    (load_data (some oldRawDoc)).appointments = some [migrateAppointment oldCompletedRawApt]
    ∧ (migrateAppointment oldCompletedRawApt).status = "completed"
    ∧ (migrateAppointment oldCompletedRawApt).appointment_completed = false
    ∧ flagMatchesStatus (migrateAppointment oldCompletedRawApt) = false :=
  ⟨rfl, rfl, rfl, rfl⟩

/-- Claim C9 (amended): the flag/status agreement is an invariant of
appointment insertion and of marking an appointment completed (the only two
mutations the running system performs: `update_appointment_completion_status`
is only ever called with `completed=True`); it is NOT re-established by the
migration on load, which backfills `false` regardless of status. -/
theorem c9_flag_matches_status_after_insert_and_update (db : DB) (now : Int)
    (hinv : ∀ a ∈ db.appointments, flagMatchesStatus a = true) :
    (∀ pe de sym t gid i db2,
        create_appointment db now pe de sym t gid = some (i, db2) →
        ∀ a ∈ db2.appointments, flagMatchesStatus a = true)
    ∧ (∀ aid : Nat,
        ∀ a ∈ (update_appointment_completion_status db now aid true).2.appointments,
        flagMatchesStatus a = true) := by
  constructor
  · intro pe de sym t gid i db2 hc a ha
    unfold create_appointment at hc
    cases hp : get_patient_by_email db pe with
    | none => rw [hp] at hc; simp at hc
    | some p =>
      cases hd : get_doctor_by_email db de with
      | none => rw [hp, hd] at hc; simp at hc
      | some d =>
        rw [hp, hd] at hc
        simp only [Option.some.injEq, Prod.mk.injEq] at hc
        obtain ⟨-, hdb⟩ := hc
        rw [← hdb] at ha
        rcases List.mem_append.mp ha with h1 | h1
        · exact hinv a h1
        · simp only [List.mem_singleton] at h1
          rw [h1]
          rfl
  · intro aid a ha
    unfold update_appointment_completion_status at ha
    cases hu : updateFirstAppointment now true db.appointments aid with
    | none =>
      rw [hu] at ha
      exact hinv a ha
    | some l2 =>
      rw [hu] at ha
      rcases updateFirst_mem now true aid db.appointments l2 hu a ha with h1 | ⟨b, -, he⟩
      · exact hinv a h1
      · rw [he]
        rfl

/-- Claim C9 witness (for the amended invariant): a store holding one
scheduled appointment keeps the invariant through completion. -/
theorem c9_flag_matches_status_witness :
    ((update_appointment_completion_status
        { baseDB with appointments := [apt1], next_appointment_id := 2 }
        2000000 1 true).2.appointments).all flagMatchesStatus = true := by
  have h := (c9_flag_matches_status_after_insert_and_update
    { baseDB with appointments := [apt1], next_appointment_id := 2 } 2000000 (by decide)).2
  exact List.all_eq_true.mpr (fun a ha => h 1 a ha)

/-- Claim C6: completing a scheduled appointment sets the completion flag, the
`"completed"` status and the completion timestamp; completing an
already-completed appointment returns the no-op signal (not an error) and
leaves the store — hence every field of the appointment, including its
completion timestamp — unchanged. -/
theorem c6_complete_appointment (db : DB) (now : Int) (aid : Nat) (de : String)
    (apt : Appointment) (hfind : get_appointment_by_id db aid = some apt)
    (hdoc : apt.doctor_email = de) :
    (apt.appointment_completed = false →
      (complete_appointment_and_collect_visit_data db now aid de).1 = .completedOk
      ∧ get_appointment_by_id
          (complete_appointment_and_collect_visit_data db now aid de).2 aid
          = some { apt with
                     appointment_completed := true, status := "completed",
                     completed_at := some now })
    ∧ (apt.appointment_completed = true →
        complete_appointment_and_collect_visit_data db now aid de
          = (.alreadyCompleted, db)) := by
  constructor
  · intro hc
    obtain ⟨l2, hu, hf2⟩ := updateFirst_find now aid db.appointments apt hfind
    have hres : complete_appointment_and_collect_visit_data db now aid de
        = (.completedOk, { db with appointments := l2 }) := by
      unfold complete_appointment_and_collect_visit_data
      rw [hfind]
      dsimp only
      rw [if_neg (by simp [hdoc]), if_neg (by simp [hc])]
      unfold update_appointment_completion_status
      rw [hu]
    rw [hres]
    refine ⟨rfl, ?_⟩
    show l2.find? _ = _
    rw [hf2]
    rfl
  · intro hc
    unfold complete_appointment_and_collect_visit_data
    rw [hfind]
    dsimp only
    rw [if_neg (by simp [hdoc]), if_pos (by simp [hc])]

/-- Claim C6 witness: one application on a scheduled appointment, one on an
already-completed one. -/
theorem c6_complete_appointment_witness :
    (complete_appointment_and_collect_visit_data schedDB 2000000 1 "bob@example.com").1
      = .completedOk
    ∧ get_appointment_by_id
        (complete_appointment_and_collect_visit_data schedDB 2000000 1 "bob@example.com").2 1
        = some { apt1 with
                   appointment_completed := true, status := "completed",
                   completed_at := some 2000000 }
    ∧ complete_appointment_and_collect_visit_data doneDB 2000000 1 "bob@example.com"
        = (.alreadyCompleted, doneDB) := by
  have h1 := (c6_complete_appointment schedDB 2000000 1 "bob@example.com" apt1
    (by rfl) (by rfl)).1 (by rfl)
  have h2 := (c6_complete_appointment doneDB 2000000 1 "bob@example.com" apt1Done
    (by rfl) (by rfl)).2 (by rfl)
  exact ⟨h1.1, h1.2, h2⟩

/-- Determines the id assigned and the store shape after a successful
`create_appointment`. -/
theorem create_appointment_some (db : DB) (now : Int) (pe de sym : String) (t : Int)
    (g : Option String) (i : Nat) (db2 : DB)
    (h : create_appointment db now pe de sym t g = some (i, db2)) :
    i = db.next_appointment_id
    ∧ db2.next_appointment_id = db.next_appointment_id + 1
    ∧ (∀ a ∈ db2.appointments, a ∈ db.appointments ∨ a.id = db.next_appointment_id) := by
  unfold create_appointment at h
  cases hp : get_patient_by_email db pe with
  | none => rw [hp] at h; simp at h
  | some p =>
    cases hd : get_doctor_by_email db de with
    | none => rw [hp, hd] at h; simp at h
    | some d =>
      rw [hp, hd] at h
      simp only [Option.some.injEq, Prod.mk.injEq] at h
      obtain ⟨hi, hdb⟩ := h
      subst hi
      subst hdb
      refine ⟨rfl, rfl, ?_⟩
      intro a ha
      rcases List.mem_append.mp ha with h1 | h1
      · left; exact h1
      · right
        simp only [List.mem_singleton] at h1
        rw [h1]

/-- Invariant bookkeeping for sequences of inserts and deletes: issued ids sit
at or above the incoming counter, are strictly increasing, and the
id-below-counter invariant is preserved. -/
theorem runOps_spec (ops : List StoreOp) :
    ∀ db : DB, (∀ a ∈ db.appointments, a.id < db.next_appointment_id) →
      (∀ i ∈ (runOps db ops).2, db.next_appointment_id ≤ i)
      ∧ List.Pairwise Nat.lt (runOps db ops).2
      ∧ (∀ a ∈ (runOps db ops).1.appointments,
          a.id < (runOps db ops).1.next_appointment_id) := by
  induction ops with
  | nil =>
    intro db hinv
    exact ⟨by simp [runOps], by simp [runOps], by simpa [runOps] using hinv⟩
  | cons op rest ih =>
    intro db hinv
    cases op with
    | createApt now pe de sym t =>
      simp only [runOps, applyOp]
      cases hc : create_appointment db now pe de sym t none with
      | none =>
        dsimp only
        obtain ⟨ih1, ih2, ih3⟩ := ih db hinv
        exact ⟨by simpa using ih1, by simpa using ih2, ih3⟩
      | some idb =>
        obtain ⟨i, db2⟩ := idb
        obtain ⟨hi, hcount, hstab⟩ := create_appointment_some db now pe de sym t none i db2 hc
        have hinv2 : ∀ a ∈ db2.appointments, a.id < db2.next_appointment_id := by
          intro a ha
          rcases hstab a ha with h1 | h1
          · have := hinv a h1; omega
          · omega
        obtain ⟨ih1, ih2, ih3⟩ := ih db2 hinv2
        dsimp only
        refine ⟨?_, ?_, ih3⟩
        · intro j hj
          rcases List.mem_cons.mp hj with h1 | h1
          · omega
          · have := ih1 j h1; omega
        · have hpc : ((some i).toList ++ (runOps db2 rest).2)
              = i :: (runOps db2 rest).2 := rfl
          rw [hpc, List.pairwise_cons]
          refine ⟨?_, ih2⟩
          intro j hj
          have h1 := ih1 j hj
          show i < j
          omega
    | deleteApt i =>
      simp only [runOps, applyOp, delete_appointment]
      cases hr : removeFirstAppointment db.appointments i with
      | none =>
        dsimp only
        exact ih db hinv
      | some l2 =>
        dsimp only
        have hinv2 : ∀ a ∈ ({ db with appointments := l2 } : DB).appointments,
            a.id < ({ db with appointments := l2 } : DB).next_appointment_id := by
          intro a ha
          exact hinv a (removeFirst_subset i db.appointments l2 hr a ha)
        exact ih { db with appointments := l2 } hinv2

/-- Claim C4: across any sequence of inserts and deletes (including inserts
performed after deletes), the issued appointment identifiers are strictly
increasing — hence pairwise distinct — because every insert assigns the
current counter value and advances the counter in the same operation; and no
operation rewrites an existing appointment's identifier (each surviving record
is either an untouched prior record or the freshly inserted one). -/
theorem c4_appointment_ids_unique_stable (db : DB) (ops : List StoreOp)
    (hinv : ∀ a ∈ db.appointments, a.id < db.next_appointment_id) :
    List.Pairwise Nat.lt (runOps db ops).2
    ∧ (∀ a ∈ (runOps db ops).1.appointments,
        a.id < (runOps db ops).1.next_appointment_id)
    ∧ (∀ op : StoreOp, ∀ a ∈ (applyOp db op).1.appointments,
        a ∈ db.appointments ∨ a.id = db.next_appointment_id) := by
  obtain ⟨-, h2, h3⟩ := runOps_spec ops db hinv
  refine ⟨h2, h3, ?_⟩
  intro op a ha
  cases op with
  | createApt now pe de sym t =>
    simp only [applyOp] at ha
    cases hc : create_appointment db now pe de sym t none with
    | none =>
      rw [hc] at ha
      left; exact ha
    | some idb =>
      obtain ⟨i, db2⟩ := idb
      rw [hc] at ha
      exact (create_appointment_some db now pe de sym t none i db2 hc).2.2 a ha
  | deleteApt i =>
    simp only [applyOp, delete_appointment] at ha
    cases hr : removeFirstAppointment db.appointments i with
    | none =>
      rw [hr] at ha
      left; exact ha
    | some l2 =>
      rw [hr] at ha
      left; exact removeFirst_subset i db.appointments l2 hr a ha

/-- Claim C4 witness: insert, delete the appointment, insert again — the ids
come out strictly increasing (`[1, 2]`), the second insert reusing nothing. -/
theorem c4_appointment_ids_unique_stable_witness :
    List.Pairwise Nat.lt
      (runOps baseDB
        [.createApt 10 "alice@example.com" "bob@example.com" "a" 50,
         .deleteApt 1,
         .createApt 10000 "alice@example.com" "bob@example.com" "b" 20000]).2
    ∧ (runOps baseDB
        [.createApt 10 "alice@example.com" "bob@example.com" "a" 50,
         .deleteApt 1,
         .createApt 10000 "alice@example.com" "bob@example.com" "b" 20000]).2 = [1, 2] := by
  refine ⟨(c4_appointment_ids_unique_stable baseDB
    [.createApt 10 "alice@example.com" "bob@example.com" "a" 50,
     .deleteApt 1,
     .createApt 10000 "alice@example.com" "bob@example.com" "b" 20000] (by decide)).1, by rfl⟩

/-- Unpacks rule 1 passing into its two propositional components. -/
theorem ruleTime_false (now t : Int) (h : ruleTimeViolated now t = false) :
    ¬(t ≤ now) ∧ ¬(now + 60 * 86400 < t) := by
  rw [ruleTimeViolated] at h
  obtain ⟨h1, h2⟩ := Bool.or_eq_false_iff.mp h
  exact ⟨of_decide_eq_false h1, of_decide_eq_false h2⟩

/-- Claim C2: the admissibility checks are evaluated in the fixed order
(1) time window, (2) 7-day duplicate, (3) 24-hour duplicate symptoms,
(4) 10-minute cooldown, (5) doctor conflict, and the rejection returned is
that of the first violated rule: whenever rules 1..i-1 pass and rule i is
violated, the result is rule i's rejection, regardless of any later rule. -/
theorem c2_booking_first_violation_wins (db : DB) (now : Int) (pe pn sym : String)
    (t : Int) (spec : String) :
    (ruleTimeViolated now t = true →
      (book_appointment_with_doctor db now pe pn sym t spec).1 = .invalidPast
      ∨ (book_appointment_with_doctor db now pe pn sym t spec).1 = .tooFar)
    ∧ (∀ apt : Appointment, ruleTimeViolated now t = false →
        firstWeekViolation db now pe = some apt →
        (book_appointment_with_doctor db now pe pn sym t spec).1
          = .duplicateBooking apt.id)
    ∧ (∀ apt : Appointment, ruleTimeViolated now t = false →
        firstWeekViolation db now pe = none →
        firstSymptomViolation db now pe sym = some apt →
        (book_appointment_with_doctor db now pe pn sym t spec).1
          = .duplicateSymptom apt.id)
    ∧ (∀ apt : Appointment, ruleTimeViolated now t = false →
        firstWeekViolation db now pe = none →
        firstSymptomViolation db now pe sym = none →
        firstCooldownViolation db now pe = some apt →
        (book_appointment_with_doctor db now pe pn sym t spec).1 = .rateLimited apt.id)
    ∧ (∀ (doc : DoctorListing) (apt : Appointment), ruleTimeViolated now t = false →
        firstWeekViolation db now pe = none →
        firstSymptomViolation db now pe sym = none →
        firstCooldownViolation db now pe = none →
        selectedDoctor (add_patient db now pe pn none none none).2 spec = some doc →
        firstDoctorConflict db.appointments doc.email t = some apt →
        (book_appointment_with_doctor db now pe pn sym t spec).1
          = .doctorConflict doc.email apt.appointment_date) := by
  refine ⟨?_, ?_, ?_, ?_, ?_⟩
  · intro hT
    rw [ruleTimeViolated, Bool.or_eq_true] at hT
    simp only [book_appointment_with_doctor]
    by_cases h1 : t ≤ now
    · left
      rw [if_pos h1]
    · right
      have h2 : now + 60 * 86400 < t := by
        rcases hT with h | h
        · exact absurd (of_decide_eq_true h) h1
        · exact of_decide_eq_true h
      rw [if_neg h1, if_pos h2]
  · intro apt hT hW
    obtain ⟨hn1, hn2⟩ := ruleTime_false now t hT
    rw [firstWeekViolation] at hW
    obtain ⟨tail, htail⟩ := head?_some_cons hW
    simp only [book_appointment_with_doctor]
    rw [if_neg hn1, if_neg hn2, htail]
  · intro apt hT hW hS
    obtain ⟨hn1, hn2⟩ := ruleTime_false now t hT
    rw [firstWeekViolation, List.head?_eq_none_iff] at hW
    rw [firstSymptomViolation] at hS
    obtain ⟨tail, htail⟩ := head?_some_cons hS
    simp only [book_appointment_with_doctor]
    rw [if_neg hn1, if_neg hn2, hW, htail]
  · intro apt hT hW hS hC
    obtain ⟨hn1, hn2⟩ := ruleTime_false now t hT
    rw [firstWeekViolation, List.head?_eq_none_iff] at hW
    rw [firstSymptomViolation, List.head?_eq_none_iff] at hS
    rw [firstCooldownViolation] at hC
    obtain ⟨tail, htail⟩ := head?_some_cons hC
    simp only [book_appointment_with_doctor]
    rw [if_neg hn1, if_neg hn2, hW, hS, htail]
  · intro doc apt hT hW hS hC hdoc hconf
    obtain ⟨hn1, hn2⟩ := ruleTime_false now t hT
    rw [firstWeekViolation, List.head?_eq_none_iff] at hW
    rw [firstSymptomViolation, List.head?_eq_none_iff] at hS
    rw [firstCooldownViolation, List.head?_eq_none_iff] at hC
    rw [selectedDoctor] at hdoc
    obtain ⟨ds, hds⟩ := head?_some_cons hdoc
    rw [firstDoctorConflict] at hconf
    obtain ⟨ct, hct⟩ := head?_some_cons hconf
    simp only [book_appointment_with_doctor]
    rw [if_neg hn1, if_neg hn2, hW, hS, hC, hds]
    dsimp only
    rw [hct]

/-- Claim C2 witness: in `dupDB` the 7-day rule and the duplicate-symptom rule
are violated at once (the symptom text matching up to trim/case); the
rejection is the 7-day one, the first in the order. -/
theorem c2_booking_first_violation_wins_witness :
    firstWeekViolation dupDB 1000000 "alice@example.com"
      = some { apt1 with created_at := 999000 }
    ∧ firstSymptomViolation dupDB 1000000 "alice@example.com" "  HEADACHE "
      = some { apt1 with created_at := 999000 }
    ∧ (book_appointment_with_doctor dupDB 1000000 "alice@example.com" "Alice" "  HEADACHE "
        1086400 "General Medicine").1 = .duplicateBooking 1 := by
  have h := (c2_booking_first_violation_wins dupDB 1000000 "alice@example.com" "Alice"
    "  HEADACHE " 1086400 "General Medicine").2.1 { apt1 with created_at := 999000 }
    (by rfl) (by rfl)
  exact ⟨rfl, rfl, h⟩

/-- Claim C3: once the patient-side rules pass and a doctor is selected, a
candidate time strictly inside the ±1-hour window of one of that doctor's
scheduled appointments is rejected with the doctor-conflict error, while a
candidate time at least 61 minutes (3660 s) away from every scheduled
appointment of that doctor passes the conflict check and the booking goes
through. -/
theorem c3_doctor_conflict_window (db : DB) (now : Int) (pe pn sym : String) (t : Int)
    (spec : String) (doc : DoctorListing)
    (hT : ruleTimeViolated now t = false)
    (hW : firstWeekViolation db now pe = none)
    (hS : firstSymptomViolation db now pe sym = none)
    (hC : firstCooldownViolation db now pe = none)
    (hdoc : selectedDoctor (add_patient db now pe pn none none none).2 spec = some doc) :
    (∀ apt : Appointment, firstDoctorConflict db.appointments doc.email t = some apt →
        (book_appointment_with_doctor db now pe pn sym t spec).1
          = .doctorConflict doc.email apt.appointment_date)
    ∧ ((∀ a ∈ db.appointments, a.doctor_email = doc.email → a.status = "scheduled" →
          3660 ≤ (a.appointment_date - t).natAbs) →
        (book_appointment_with_doctor db now pe pn sym t spec).1
          = .booked db.next_appointment_id doc.email t) := by
  obtain ⟨hn1, hn2⟩ := ruleTime_false now t hT
  rw [firstWeekViolation, List.head?_eq_none_iff] at hW
  rw [firstSymptomViolation, List.head?_eq_none_iff] at hS
  rw [firstCooldownViolation, List.head?_eq_none_iff] at hC
  have hdoc2 := hdoc
  rw [selectedDoctor] at hdoc2
  obtain ⟨ds, hds⟩ := head?_some_cons hdoc2
  constructor
  · intro apt hconf
    rw [firstDoctorConflict] at hconf
    obtain ⟨ct, hct⟩ := head?_some_cons hconf
    simp only [book_appointment_with_doctor]
    rw [if_neg hn1, if_neg hn2, hW, hS, hC, hds]
    dsimp only
    rw [hct]
  · intro hfar
    have hconf : List.filter (fun apt => apt.doctor_email == doc.email
        && apt.status == "scheduled"
        && decide ((apt.appointment_date - t).natAbs < 3600)) db.appointments = [] := by
      rw [List.filter_eq_nil_iff]
      intro a ha h
      simp only [Bool.and_eq_true, beq_iff_eq, decide_eq_true_eq] at h
      obtain ⟨⟨hde, hst⟩, hlt⟩ := h
      have := hfar a ha hde hst
      omega
    have hfinal : List.filter (fun apt => apt.patient_email == pe
        && apt.status == "scheduled" && decide (now - apt.created_at < 60))
        (add_patient db now pe pn none none none).2.appointments = [] := by
      rw [(add_patient_other_fields db now pe pn none none none).1,
        List.filter_eq_nil_iff]
      intro a ha h
      simp only [Bool.and_eq_true, beq_iff_eq, decide_eq_true_eq] at h
      obtain ⟨⟨hpe2, -⟩, hlt⟩ := h
      have hc2 := List.filter_eq_nil_iff.mp hC a ha
      apply hc2
      simp only [Bool.and_eq_true, beq_iff_eq, decide_eq_true_eq]
      exact ⟨hpe2, by omega⟩
    obtain ⟨p0, hp0, -⟩ := add_patient_email_found db now pe pn none none none
    obtain ⟨kv, hkv, hkve⟩ := selectedDoctor_email_in_db
      (add_patient db now pe pn none none none).2 spec doc hdoc
    obtain ⟨d0, hd0, -⟩ := doctor_email_found
      (add_patient db now pe pn none none none).2 doc.email kv hkv hkve
    simp only [book_appointment_with_doctor]
    rw [if_neg hn1, if_neg hn2, hW, hS, hC, hds]
    dsimp only
    rw [hconf, hfinal]
    dsimp only
    unfold create_appointment
    rw [hp0, hd0]
    dsimp only
    rw [(add_patient_other_fields db now pe pn none none none).2.2.1]

/-- The listing `get_doctors_by_specialization` produces for Bob. -/
def bobListing : DoctorListing :=
  { id := 1, email := "bob@example.com", name := "Bob"
    specialization := "General Medicine", days_available := none, created_at := 0 }

/-- Claim C3 witness: with Bob's other appointment 30 minutes after the
candidate time the booking is rejected with the doctor conflict; with no
appointment of Bob anywhere near (none at all), it is booked. -/
theorem c3_doctor_conflict_window_witness :
    (book_appointment_with_doctor conflictDB 1000000 "alice@example.com" "Alice" "Headache"
        1086400 "General Medicine").1
      = .doctorConflict "bob@example.com" carolApt.appointment_date
    ∧ (book_appointment_with_doctor baseDB 1000000 "alice@example.com" "Alice" "Headache"
        1086400 "General Medicine").1 = .booked 1 "bob@example.com" 1086400 := by
  constructor
  · exact (c3_doctor_conflict_window conflictDB 1000000 "alice@example.com" "Alice"
      "Headache" 1086400 "General Medicine" bobListing
      (by rfl) (by rfl) (by rfl) (by rfl) (by rfl)).1 carolApt (by rfl)
  · exact (c3_doctor_conflict_window baseDB 1000000 "alice@example.com" "Alice"
      "Headache" 1086400 "General Medicine" bobListing
      (by rfl) (by rfl) (by rfl) (by rfl) (by rfl)).2
      (by intro a ha _ _; simp [baseDB] at ha)

/-- Claim C10: whenever the booking tool rejects after the duplicate checks —
no doctor for the specialization, a doctor conflict, or the race-condition
re-check — the patient upsert performed earlier in the flow remains in the
store (the final store is exactly the upserted one, with the patient
resolvable by email) while no appointment was added: a rejected booking is
not fully state-preserving. -/
theorem c10_rejection_keeps_upserted_patient (db : DB) (now : Int) (pe pn sym : String)
    (t : Int) (spec : String)
    (h : isPostUpsertRejection
      (book_appointment_with_doctor db now pe pn sym t spec).1 = true) :
    (book_appointment_with_doctor db now pe pn sym t spec).2
      = (add_patient db now pe pn none none none).2
    ∧ (book_appointment_with_doctor db now pe pn sym t spec).2.appointments
      = db.appointments
    ∧ ∃ p, get_patient_by_email
        (book_appointment_with_doctor db now pe pn sym t spec).2 pe = some p
        ∧ p.email = pe := by
  have key : (book_appointment_with_doctor db now pe pn sym t spec).2
      = (add_patient db now pe pn none none none).2 := by
    rcases hbook : book_appointment_with_doctor db now pe pn sym t spec with ⟨r, db2⟩
    rw [hbook] at h
    dsimp only at h
    simp only [book_appointment_with_doctor] at hbook
    repeat' split at hbook
    all_goals injection hbook with h1 h2
    all_goals subst h1
    all_goals subst h2
    all_goals first
      | rfl
      | simp [isPostUpsertRejection] at h
  refine ⟨key, ?_, ?_⟩
  · rw [key]
    exact (add_patient_other_fields db now pe pn none none none).1
  · rw [key]
    exact add_patient_email_found db now pe pn none none none

/-- `baseDB` with no doctors registered, so a parseable admissible request
still fails at doctor selection. -/
def noDocDB : DB := { baseDB with doctors := [] }

/-- Claim C10 witness: with no doctors the booking is rejected after the
upsert; Alice's record (updated by the upsert) is still there and no
appointment was added. -/
theorem c10_rejection_keeps_upserted_patient_witness :
    (book_appointment_with_doctor noDocDB 1000000 "alice@example.com" "Alice" "Headache"
        1086400 "General Medicine").2
      = (add_patient noDocDB 1000000 "alice@example.com" "Alice" none none none).2
    ∧ (book_appointment_with_doctor noDocDB 1000000 "alice@example.com" "Alice" "Headache"
        1086400 "General Medicine").2.appointments = noDocDB.appointments := by
  have h := c10_rejection_keeps_upserted_patient noDocDB 1000000 "alice@example.com"
    "Alice" "Headache" 1086400 "General Medicine" (by rfl)
  exact ⟨h.1, h.2.1⟩

end MedAI
